import Mathlib

/-!
Shallow embedding of the SatAlign Pro service worker cache engine
(`src/sw.js`, current version: lines 1-705).

Strings from the JavaScript source are modelled as `List Char` so that all
definitions are executable and decidable.  Asynchronous functions become pure
functions: the outcome of the network `fetch` is passed in explicitly as an
`Except` value (error = rejected promise), the cache store is passed and
returned explicitly, and `Date.now()` is an explicit `now` parameter.
-/

namespace SatAlign

/-- JavaScript strings, modelled as lists of characters. -/
abbrev Str := List Char

/-- `CACHE_NAME` constant (sw.js line 1). -/
def CACHE_NAME : Str := "satalign-pro-enterprise-v3.0.0-production".toList

/-- `CACHE_EXPIRY = 24 * 60 * 60 * 1000` milliseconds (sw.js line 3). -/
def CACHE_EXPIRY : Int := 24 * 60 * 60 * 1000

/-- The api URL pattern `^https:\/\/api\.satalign\.pro\//` (sw.js line 16):
an anchored literal prefix of the URL href. -/
def apiPat : Str := "https://api.satalign.pro/".toList

/-- The telemetry URL pattern `^https:\/\/telemetry\.satalign\.pro\//`
(sw.js line 17): an anchored literal prefix of the URL href. -/
def telemetryPat : Str := "https://telemetry.satalign.pro/".toList

/-- Image extensions of the pattern `\.(jpg|jpeg|png|gif|webp|svg|ico)$/i`
(sw.js line 14). -/
def imageExts : List Str :=
  ["jpg", "jpeg", "png", "gif", "webp", "svg", "ico"].map String.toList

/-- Font extensions of the pattern `\.(woff|woff2|ttf|eot)$/i` (sw.js line 15). -/
def fontExts : List Str :=
  ["woff", "woff2", "ttf", "eot"].map String.toList

/-- An anchored, case-insensitive file-extension regex `\.(e1|...|ek)$/i`
matches a pathname exactly when the lower-cased pathname ends in `"." ++ ei`
for some extension `ei` in the list. -/
def extMatch (exts : List Str) (pathname : Str) : Bool :=
  exts.any fun ext => ('.' :: ext).isSuffixOf (pathname.map Char.toLower)

/-- The relevant parts of a parsed `URL` object: `href` and `pathname`. -/
structure SWUrl where
  href : Str
  pathname : Str
deriving DecidableEq

/-- The relevant parts of a fetch-event `Request`: its parsed URL and its
`destination` string. -/
structure SWRequest where
  url : SWUrl
  destination : Str
deriving DecidableEq

/-- The four strategy names returned by `getCacheStrategy`. -/
inductive Strategy where
  | networkFirst
  | networkOnly
  | cacheFirst
  | staleWhileRevalidate
deriving DecidableEq

/-- `getCacheStrategy` (sw.js lines 103-133), in the source's evaluation
order: api, telemetry, images, fonts, document destination, default. -/
def getCacheStrategy (request : SWRequest) : Strategy :=
  if apiPat.isPrefixOf request.url.href then .networkFirst
  else if telemetryPat.isPrefixOf request.url.href then .networkOnly
  else if extMatch imageExts request.url.pathname then .cacheFirst
  else if extMatch fontExts request.url.pathname then .cacheFirst
  else if request.destination = "document".toList then .staleWhileRevalidate
  else .cacheFirst

/-- First-match evaluation in the order stated by the spec (section 4.1):
telemetry, api, images, fonts, document destination, default.  This follows
the spec's words, to be compared with `getCacheStrategy` from the source. -/
def specOrderStrategy (request : SWRequest) : Strategy :=
  if telemetryPat.isPrefixOf request.url.href then .networkOnly
  else if apiPat.isPrefixOf request.url.href then .networkFirst
  else if extMatch imageExts request.url.pathname then .cacheFirst
  else if extMatch fontExts request.url.pathname then .cacheFirst
  else if request.destination = "document".toList then .staleWhileRevalidate
  else .cacheFirst

/-- An HTTP `Response`: status, status text, header list, body. -/
structure Response where
  status : Nat
  statusText : Str
  headers : List (Str × Str)
  body : Str
deriving DecidableEq

/-- `Headers.get name`: the value of the first header with the given name. -/
def headersGet (hs : List (Str × Str)) (name : Str) : Option Str :=
  (hs.find? fun p => p.1 = name).map Prod.snd

/-- `Headers.set name value`: replace the value of every header with the
given name, or append the pair if the name is absent. -/
def headersSet (hs : List (Str × Str)) (name value : Str) : List (Str × Str) :=
  if hs.any (fun p => p.1 = name) then
    hs.map fun p => if p.1 = name then (name, value) else p
  else hs ++ [(name, value)]

/-- One generation's cache store: a request-key to response mapping with
`match` and `put` (put overwrites the entry for the key). -/
abbrev Cache := List (Str × Response)

/-- `cache.match request` (first entry for the key, if any). -/
def cacheMatch (c : Cache) (key : Str) : Option Response :=
  (c.find? fun p => p.1 = key).map Prod.snd

/-- `cache.put request response`: overwrite the entry for the key. -/
def cachePut (c : Cache) (key : Str) (r : Response) : Cache :=
  (key, r) :: c.filter fun p => p.1 ≠ key

/-- The header name `'sw-cached-time'` used by `fetchAndCache` and
`isExpired` (sw.js lines 218 and 234). -/
def cachedTimeHeader : Str := "sw-cached-time".toList

/-- `Date.now().toString()`: the decimal digit string of a timestamp. -/
def natToStr (n : Nat) : Str := Nat.toDigits 10 n

/-- `parseInt` on the canonical decimal strings produced by
`Date.now().toString()`: `some` of the value on an all-digit string,
`none` (JavaScript `NaN`, under which the `>` comparison in `isExpired`
is false) otherwise. -/
def parseDecAux : List Char → Nat → Option Nat
  | [], acc => some acc
  | c :: cs, acc =>
    if c.isDigit then parseDecAux cs (acc * 10 + (c.toNat - 48)) else none

/-- parseInt wrapper: empty strings carry no numeric value. -/
def parseDec (s : Str) : Option Nat :=
  match s with
  | [] => none
  | _ => parseDecAux s 0

/-- `isExpired` (sw.js lines 233-238): read the `sw-cached-time` header;
absent (or non-numeric, hence NaN) means not expired; otherwise expired
exactly when `now - cachedTime > CACHE_EXPIRY`.  `Date.now()` is the
explicit `now` parameter. -/
def isExpired (r : Response) (now : Nat) : Bool :=
  match headersGet r.headers cachedTimeHeader with
  | none => false
  | some ct =>
    match parseDec ct with
    | none => false
    | some t => (now : Int) - (t : Int) > CACHE_EXPIRY

/-- The annotated copy of a response built inside `fetchAndCache`
(sw.js lines 214-224): same status, status text and body, with the
`sw-cached-time` header set to the current time. -/
def withCachedTime (r : Response) (now : Nat) : Response :=
  { status := r.status
    statusText := r.statusText
    headers := headersSet r.headers cachedTimeHeader (natToStr now)
    body := r.body }

/-- A network fetch outcome: a response, or a rejection (network error). -/
abbrev NetResult := Except Str Response

/-- `fetchAndCache` (sw.js lines 209-230): await the network fetch
(rethrowing a rejection); if the status is exactly 200, put the annotated
copy into the cache; always return the original response together with the
(possibly updated) cache. -/
def fetchAndCache (c : Cache) (key : Str) (net : NetResult) (now : Nat) :
    Except Str (Cache × Response) :=
  match net with
  | .error e => .error e
  | .ok response =>
    if response.status = 200 then
      .ok (cachePut c key (withCachedTime response now), response)
    else
      .ok (c, response)

/-- `networkFirst` (sw.js lines 158-170): try `fetchAndCache`; on a thrown
error, return the cached entry for the key when one exists, else rethrow. -/
def networkFirst (c : Cache) (key : Str) (net : NetResult) (now : Nat) :
    Except Str (Cache × Response) :=
  match fetchAndCache c key net now with
  | .ok res => .ok res
  | .error e =>
    match cacheMatch c key with
    | some cached => .ok (c, cached)
    | none => .error e

/-- `cacheFirst` (sw.js lines 173-188): if a cached entry exists and is not
expired, return it without fetching; otherwise try `fetchAndCache`, and on a
thrown error return the (possibly expired) cached entry when one exists,
else rethrow.  The boolean records whether the network was consulted. -/
def cacheFirst (c : Cache) (key : Str) (net : NetResult) (now : Nat) :
    Except Str (Cache × Response × Bool) :=
  match cacheMatch c key with
  | some cached =>
    if ¬ isExpired cached now then
      .ok (c, cached, false)
    else
      match fetchAndCache c key net now with
      | .ok (c2, r) => .ok (c2, r, true)
      | .error _ => .ok (c, cached, true)
  | none =>
    match fetchAndCache c key net now with
    | .ok (c2, r) => .ok (c2, r, true)
    | .error e => .error e

/-- `staleWhileRevalidate` (sw.js lines 191-206): always start a background
`fetchAndCache` whose rejection is caught (logged, swallowed); if a cached
entry exists return it immediately, otherwise return the settled value of
the background fetch (`none` models the `undefined` a caught rejection
resolves to).  The function never throws. -/
def staleWhileRevalidate (c : Cache) (key : Str) (net : NetResult) (now : Nat) :
    Cache × Option Response :=
  let bg := fetchAndCache c key net now
  let c2 := match bg with
    | .ok (c2, _) => c2
    | .error _ => c
  match cacheMatch c key with
  | some cached => (c2, some cached)
  | none =>
    match bg with
    | .ok (_, r) => (c2, some r)
    | .error _ => (c2, none)

/-- The naming pattern `'satalign-pro'` used to recognise this
application's cache generations (sw.js lines 470, 513, 542). -/
def appPat : Str := "satalign-pro".toList

/-- The `oldCaches` list computed by `cleanupOldCaches` (sw.js lines
469-471): generations matching the application pattern other than the
current one. -/
def oldCaches (names : Finset Str) : Finset Str :=
  names.filter fun n => appPat.isPrefixOf n ∧ n ≠ CACHE_NAME

/-- `cleanupOldCaches` (sw.js lines 467-480): delete every old cache;
the resulting set of cache generations. -/
def cleanupOldCaches (names : Finset Str) : Finset Str :=
  names \ oldCaches names

/-- The `appCaches` list computed by `getCacheStatus` and
`clearApplicationCaches` (sw.js lines 513, 542): the generations matching
the application pattern. -/
def appCaches (names : Finset Str) : Finset Str :=
  names.filter fun n => appPat.isPrefixOf n

/-- The `totalCaches` field reported by `getCacheStatus` (sw.js line 528):
the number of generations matching the application pattern. -/
def getCacheStatusTotal (names : Finset Str) : Nat :=
  (appCaches names).card

/-- `clearApplicationCaches` (sw.js lines 539-553): delete every generation
matching the application pattern and return `true`; if the cache store
throws (`storeFails`), catch, log and return `false` without propagating.
Returns the success boolean and the resulting set of generations. -/
def clearApplicationCaches (names : Finset Str) (storeFails : Bool) :
    Bool × Finset Str :=
  if storeFails then (false, names)
  else (true, names \ appCaches names)

/-- The body of the `try` block of `syncSatelliteData` (sw.js lines
556-575): when the payload has a `satellites` field, await the cache write
(whose outcome is `putResult`); then broadcast.  A failed write rejects the
body. -/
def syncSatelliteDataBody (hasSatellites : Bool) (putResult : Except Str Unit) :
    Except Str Unit :=
  if hasSatellites then
    match putResult with
    | .ok _ => .ok ()
    | .error e => .error e
  else .ok ()

/-- `syncSatelliteData` (sw.js lines 555-579): the whole body runs inside
`try { ... } catch (error) { console.error(...) }` — every error, including
a cache write failure, is caught and logged, and the function returns
normally. -/
def syncSatelliteData (hasSatellites : Bool) (putResult : Except Str Unit) :
    Except Str Unit :=
  match syncSatelliteDataBody hasSatellites putResult with
  | .ok u => .ok u
  | .error _ => .ok ()

/-- The api and telemetry URL patterns are disjoint: no href matches both,
since the two anchored literal prefixes differ. -/
theorem apiTelemetry_not_both (s : Str) :
    ¬ (apiPat.isPrefixOf s = true ∧ telemetryPat.isPrefixOf s = true) := by
  rintro ⟨h1, h2⟩
  rw [ List.isPrefixOf_iff_prefix] at h1 h2
  rcases List.prefix_or_prefix_of_prefix h1 h2 with h | h
  · rw [← List.isPrefixOf_iff_prefix] at h
    revert h
    decide
  · rw [← List.isPrefixOf_iff_prefix] at h
    revert h
    decide

/-- C1: the Strategy Selector is total and deterministic — for every request
it returns exactly one strategy among the four (it is a function into the
four-constructor type `Strategy`), and its result equals first-match
evaluation in the spec's order (telemetry, api, image, font, document,
default), even though the source tests api before telemetry, because the
two anchored patterns are disjoint. -/
theorem C1_strategy_selector_total_deterministic (r : SWRequest) :
    getCacheStrategy r = specOrderStrategy r ∧
    (getCacheStrategy r = Strategy.cacheFirst ∨
     getCacheStrategy r = Strategy.networkFirst ∨
     getCacheStrategy r = Strategy.staleWhileRevalidate ∨
     getCacheStrategy r = Strategy.networkOnly) := by
  constructor
  · by_cases h1 : apiPat.isPrefixOf r.url.href = true
    · by_cases h2 : telemetryPat.isPrefixOf r.url.href = true
      · exact absurd ⟨h1, h2⟩ (apiTelemetry_not_both _)
      · simp [getCacheStrategy, specOrderStrategy, h1, h2]
    · simp [getCacheStrategy, specOrderStrategy, h1]
  · cases h : getCacheStrategy r
    · simp
    · simp
    · simp
    · simp

/-- C1 witness: on a telemetry URL (matched by the first pattern of the
spec's order) the source selector agrees with the spec-order selector. -/
theorem C1_strategy_selector_total_deterministic_witness :
    getCacheStrategy
      ⟨⟨"https://telemetry.satalign.pro/t".toList, "/t".toList⟩, []⟩ =
    specOrderStrategy
      ⟨⟨"https://telemetry.satalign.pro/t".toList, "/t".toList⟩, []⟩ :=
  (C1_strategy_selector_total_deterministic
    ⟨⟨"https://telemetry.satalign.pro/t".toList, "/t".toList⟩, []⟩).1

/-- C6: `isExpired` is a pure predicate: an entry with no cached-time header
never expires; an entry whose numeric cached-time is older than the 24-hour
TTL is expired; one younger than the TTL is not. -/
theorem C6_isExpired_ttl (r : Response) (now : Nat) :
    (headersGet r.headers cachedTimeHeader = none → isExpired r now = false) ∧
    (∀ s t, headersGet r.headers cachedTimeHeader = some s →
      parseDec s = some t →
      (((now : Int) - (t : Int) > CACHE_EXPIRY → isExpired r now = true) ∧
       ((now : Int) - (t : Int) < CACHE_EXPIRY → isExpired r now = false))) := by
  constructor
  · intro h
    simp [isExpired, h]
  · intro s t hs ht
    constructor
    · intro hgt
      simp [isExpired, hs, ht, hgt]
    · intro hlt
      have : ¬ ((now : Int) - (t : Int) > CACHE_EXPIRY) := by omega
      simp [isExpired, hs, ht, this]

/-- C6 witness: an entry stamped at time 0 is expired at time
86400001 (one millisecond past the TTL), and an entry with no
cached-time header is never expired. -/
theorem C6_isExpired_ttl_witness :
    isExpired ⟨200, [], [(cachedTimeHeader, "0".toList)], []⟩ 86400001 = true ∧
    isExpired ⟨200, [], [], []⟩ 86400001 = false := by
  constructor
  · exact (((C6_isExpired_ttl ⟨200, [], [(cachedTimeHeader, "0".toList)], []⟩
      86400001).2 "0".toList 0 (by decide) (by decide)).1 (by decide))
  · exact ((C6_isExpired_ttl ⟨200, [], [], []⟩ 86400001).1 (by decide))

/-- C10: boundary behavior of expiry — an entry whose elapsed age equals the
TTL exactly is judged not expired, because the comparison in `isExpired` is
a strict greater-than. -/
theorem C10_expiry_boundary (r : Response) (now : Nat) (s : Str) (t : Nat)
    (h1 : headersGet r.headers cachedTimeHeader = some s)
    (h2 : parseDec s = some t)
    (h3 : (now : Int) - (t : Int) = CACHE_EXPIRY) :
    isExpired r now = false := by
  have : ¬ ((now : Int) - (t : Int) > CACHE_EXPIRY) := by omega
  simp [isExpired, h1, h2, this]

/-- C10 witness: an entry stamped at time 0 is not expired at time
86400000, exactly 24 hours later. -/
theorem C10_expiry_boundary_witness :
    isExpired ⟨200, [], [(cachedTimeHeader, "0".toList)], []⟩ 86400000 = false :=
  C10_expiry_boundary ⟨200, [], [(cachedTimeHeader, "0".toList)], []⟩
    86400000 "0".toList 0 (by decide) (by decide) (by decide)

/-- The entry written by `cachePut` is found by a `cacheMatch` on the same
key. -/
theorem cacheMatch_cachePut_self (c : Cache) (key : Str) (r : Response) :
    cacheMatch (cachePut c key r) key = some r := by
  simp [cacheMatch, cachePut, List.find?]

/-- C2: `fetchAndCache` rethrows a network error; on a 200 response it
writes exactly the annotated copy (cached-time header set to now) into the
cache and returns the original response; on a non-200 response it leaves
the cache unchanged and returns the original response. -/
theorem C2_fetchAndCache_caches_iff_200 (c : Cache) (key : Str)
    (net : NetResult) (now : Nat) :
    (∀ e, net = .error e → fetchAndCache c key net now = .error e) ∧
    (∀ r, net = .ok r →
      (r.status = 200 →
        ∃ c2, fetchAndCache c key net now = .ok (c2, r) ∧
          c2 = cachePut c key (withCachedTime r now) ∧
          cacheMatch c2 key = some (withCachedTime r now)) ∧
      (r.status ≠ 200 → fetchAndCache c key net now = .ok (c, r))) := by
  constructor
  · intro e he
    simp [fetchAndCache, he]
  · intro r hr
    constructor
    · intro h200
      exact ⟨cachePut c key (withCachedTime r now),
        by simp [fetchAndCache, hr, h200], rfl, cacheMatch_cachePut_self _ _ _⟩
    · intro hn
      simp [fetchAndCache, hr, hn]

/-- C2 witness: a rejected fetch is rethrown, and a 200 response is cached
annotated while the original is returned. -/
theorem C2_fetchAndCache_caches_iff_200_witness :
    fetchAndCache [] "k".toList (.error "boom".toList) 7 = .error "boom".toList ∧
    (∃ c2, fetchAndCache [] "k".toList (.ok ⟨200, [], [], []⟩) 7 =
        .ok (c2, ⟨200, [], [], []⟩) ∧
      c2 = cachePut [] "k".toList (withCachedTime ⟨200, [], [], []⟩ 7) ∧
      cacheMatch c2 "k".toList = some (withCachedTime ⟨200, [], [], []⟩ 7)) := by
  constructor
  · exact (C2_fetchAndCache_caches_iff_200 [] "k".toList
      (.error "boom".toList) 7).1 "boom".toList rfl
  · exact ((C2_fetchAndCache_caches_iff_200 [] "k".toList
      (.ok ⟨200, [], [], []⟩) 7).2 ⟨200, [], [], []⟩ rfl).1 rfl

/-- C3: `cacheFirst` returns a fresh cached entry with no network fetch
(the network outcome is irrelevant and the fetched flag is false);
otherwise it attempts `fetchAndCache`, returning its result on success; on
a network error it falls back to the (possibly expired) cached entry when
one exists, else the error propagates. -/
theorem C3_cacheFirst_behavior (c : Cache) (key : Str) (net : NetResult)
    (now : Nat) :
    (∀ cached, cacheMatch c key = some cached → isExpired cached now = false →
      cacheFirst c key net now = .ok (c, cached, false)) ∧
    (∀ cached c2 r, cacheMatch c key = some cached →
      isExpired cached now = true →
      fetchAndCache c key net now = .ok (c2, r) →
      cacheFirst c key net now = .ok (c2, r, true)) ∧
    (∀ cached e, cacheMatch c key = some cached →
      isExpired cached now = true → net = .error e →
      cacheFirst c key net now = .ok (c, cached, true)) ∧
    (∀ c2 r, cacheMatch c key = none →
      fetchAndCache c key net now = .ok (c2, r) →
      cacheFirst c key net now = .ok (c2, r, true)) ∧
    (∀ e, cacheMatch c key = none → net = .error e →
      cacheFirst c key net now = .error e) := by
  refine ⟨?_, ?_, ?_, ?_, ?_⟩
  · intro cached hm hexp
    simp [cacheFirst, hm, hexp]
  · intro cached c2 r hm hexp hfetch
    simp [cacheFirst, hm, hexp, hfetch]
  · intro cached e hm hexp hnet
    simp [cacheFirst, hm, hexp, fetchAndCache, hnet]
  · intro c2 r hm hfetch
    simp [cacheFirst, hm, hfetch]
  · intro e hm hnet
    simp [cacheFirst, hm, fetchAndCache, hnet]

/-- C3 witness: a fresh cached entry (no timestamp, hence never expired) is
served with no fetch even when the network is down. -/
theorem C3_cacheFirst_behavior_witness :
    cacheFirst [("k".toList, ⟨200, [], [], []⟩)] "k".toList
      (.error "down".toList) 5 =
      .ok ([("k".toList, ⟨200, [], [], []⟩)], ⟨200, [], [], []⟩, false) :=
  (C3_cacheFirst_behavior [("k".toList, ⟨200, [], [], []⟩)] "k".toList
    (.error "down".toList) 5).1 ⟨200, [], [], []⟩ (by decide) (by decide)

/-- C4: `networkFirst` returns whatever `fetchAndCache` returns when it
does not throw (in particular a non-200 response is returned as-is, with no
cache fallback, even when a cached entry exists); when it throws, the
cached entry is returned when one exists — with no expiry condition, hence
regardless of age — else the error propagates. -/
theorem C4_networkFirst_behavior (c : Cache) (key : Str) (net : NetResult)
    (now : Nat) :
    (∀ res, fetchAndCache c key net now = .ok res →
      networkFirst c key net now = .ok res) ∧
    (∀ e cached, net = .error e → cacheMatch c key = some cached →
      networkFirst c key net now = .ok (c, cached)) ∧
    (∀ e, net = .error e → cacheMatch c key = none →
      networkFirst c key net now = .error e) ∧
    (∀ r, net = .ok r → r.status ≠ 200 →
      networkFirst c key net now = .ok (c, r)) := by
  refine ⟨?_, ?_, ?_, ?_⟩
  · intro res h
    simp [networkFirst, h]
  · intro e cached he hm
    simp [networkFirst, fetchAndCache, he, hm]
  · intro e he hm
    simp [networkFirst, fetchAndCache, he, hm]
  · intro r hr hn
    simp [networkFirst, fetchAndCache, hr, hn]

/-- C4 witness: with the network down, an expired cached entry (stamped at
time 0, requested far past the TTL) is still returned by network-first. -/
theorem C4_networkFirst_behavior_witness :
    networkFirst [("k".toList, ⟨200, [], [(cachedTimeHeader, "0".toList)], []⟩)]
      "k".toList (.error "down".toList) 999999999 =
      .ok ([("k".toList, ⟨200, [], [(cachedTimeHeader, "0".toList)], []⟩)],
        ⟨200, [], [(cachedTimeHeader, "0".toList)], []⟩) :=
  (C4_networkFirst_behavior
    [("k".toList, ⟨200, [], [(cachedTimeHeader, "0".toList)], []⟩)]
    "k".toList (.error "down".toList) 999999999).2.1
    "down".toList ⟨200, [], [(cachedTimeHeader, "0".toList)], []⟩ rfl (by decide)

/-- C5: `staleWhileRevalidate` always starts the background fetch-and-cache
(a 200 network response updates the cache even on a cache hit), swallows
its failure (a network error leaves the cache unchanged and the function
still returns), serves a cached entry immediately whatever the network
outcome, and with no cached entry returns the settled background result:
the fetched response, or none (undefined) after a swallowed failure. -/
theorem C5_staleWhileRevalidate_behavior (c : Cache) (key : Str)
    (net : NetResult) (now : Nat) :
    (∀ cached, cacheMatch c key = some cached →
      (staleWhileRevalidate c key net now).2 = some cached) ∧
    (∀ r, net = .ok r → r.status = 200 →
      (staleWhileRevalidate c key net now).1 =
        cachePut c key (withCachedTime r now)) ∧
    (∀ e, net = .error e →
      (staleWhileRevalidate c key net now).1 = c ∧
      (cacheMatch c key = none →
        (staleWhileRevalidate c key net now).2 = none)) ∧
    (∀ r, cacheMatch c key = none → net = .ok r →
      (staleWhileRevalidate c key net now).2 = some r) := by
  refine ⟨?_, ?_, ?_, ?_⟩
  · intro cached hm
    cases hnet : net with
    | error e => simp [staleWhileRevalidate, fetchAndCache, hm]
    | ok r =>
      by_cases h200 : r.status = 200 <;>
        simp [staleWhileRevalidate, fetchAndCache, hm, h200]
  · intro r hr h200
    cases hm : cacheMatch c key <;>
      simp [staleWhileRevalidate, fetchAndCache, hr, h200, hm]
  · intro e he
    constructor
    · cases hm : cacheMatch c key <;>
        simp [staleWhileRevalidate, fetchAndCache, he, hm]
    · intro hm
      simp [staleWhileRevalidate, fetchAndCache, he, hm]
  · intro r hm hr
    by_cases h200 : r.status = 200 <;>
      simp [staleWhileRevalidate, fetchAndCache, hm, hr, h200]

/-- C5 witness: with a cached entry present, the strategy returns it even
when the network outcome is a failure (the caller never awaits it). -/
theorem C5_staleWhileRevalidate_behavior_witness :
    (staleWhileRevalidate [("k".toList, ⟨200, [], [], []⟩)] "k".toList
      (.error "slow".toList) 5).2 = some ⟨200, [], [], []⟩ :=
  (C5_staleWhileRevalidate_behavior [("k".toList, ⟨200, [], [], []⟩)]
    "k".toList (.error "slow".toList) 5).1 ⟨200, [], [], []⟩ (by decide)

/-- C7: for any starting set of cache generations containing the current
one, the activation cleanup removes exactly the generations that match the
application pattern and differ from the current name, leaves the current
generation as the only pattern-matching one, and is idempotent. -/
theorem C7_activate_cleanup (names : Finset Str) (h : CACHE_NAME ∈ names) :
    (∀ n, n ∈ cleanupOldCaches names ↔
      n ∈ names ∧ ¬ (appPat.isPrefixOf n = true ∧ n ≠ CACHE_NAME)) ∧
    appCaches (cleanupOldCaches names) = {CACHE_NAME} ∧
    cleanupOldCaches (cleanupOldCaches names) = cleanupOldCaches names := by
  refine ⟨?_, ?_, ?_⟩
  · intro n
    simp only [cleanupOldCaches, oldCaches, Finset.mem_sdiff, Finset.mem_filter]
    tauto
  · ext n
    simp only [appCaches, cleanupOldCaches, oldCaches, Finset.mem_filter,
      Finset.mem_sdiff, Finset.mem_singleton]
    constructor
    · rintro ⟨⟨hn, hnot⟩, hpre⟩
      by_contra hne
      exact hnot ⟨hn, hpre, hne⟩
    · rintro rfl
      refine ⟨⟨h, ?_⟩, by decide⟩
      rintro ⟨-, -, hne⟩
      exact hne rfl
  · ext n
    simp only [cleanupOldCaches, oldCaches, Finset.mem_sdiff, Finset.mem_filter]
    tauto

/-- C7 witness: starting from exactly the current generation, the cleanup
keeps it as the only pattern-matching generation. -/
theorem C7_activate_cleanup_witness :
    appCaches (cleanupOldCaches {CACHE_NAME}) = {CACHE_NAME} :=
  (C7_activate_cleanup {CACHE_NAME} (Finset.mem_singleton_self CACHE_NAME)).2.1

/-- C8 counterexample: a cache write failure during `syncSatelliteData` is
not surfaced to the caller — with a satellites payload and a failing cache
write, the operation returns normally instead of propagating the error,
because its whole body runs inside a try/catch that only logs. -/
theorem C8_counterexample_sync_swallows :
    syncSatelliteData true (.error "cache write failed".toList) = .ok () ∧
    syncSatelliteData true (.error "cache write failed".toList) ≠
      .error "cache write failed".toList := by
  constructor
  · rfl
  · simp [syncSatelliteData, syncSatelliteDataBody]

/-- C8 amended: not every cache-store failure is surfaced to the caller of
the operation in which it occurs — a cache write failure during the
satellite-data sync operation is caught by that operation's own try/catch,
logged and not propagated: `syncSatelliteData` returns normally on every
input, even though the failed write does reject its try-block body. -/
theorem C8_sync_error_swallowed (hasSatellites : Bool)
    (putResult : Except Str Unit) :
    syncSatelliteData hasSatellites putResult = .ok () ∧
    (∀ e, hasSatellites = true → putResult = .error e →
      syncSatelliteDataBody hasSatellites putResult = .error e) := by
  constructor
  · cases hasSatellites <;> cases putResult <;> rfl
  · intro e hh hp
    subst hh
    subst hp
    rfl

/-- C8 amended witness: a concrete failing write rejects the try-block body
(and is then swallowed by the catch). -/
theorem C8_sync_error_swallowed_witness :
    syncSatelliteDataBody true (.error "disk".toList) = .error "disk".toList :=
  (C8_sync_error_swallowed true (.error "disk".toList)).2 "disk".toList rfl rfl

/-- C9: processing CLEAR_CACHE with a healthy store deletes exactly the
generations matching the application pattern and replies true, after which
the cache-status query reports zero pattern-matching caches; when the store
throws, it replies false without propagating the error. -/
theorem C9_clear_cache (names : Finset Str) :
    (clearApplicationCaches names false).1 = true ∧
    (∀ n, n ∈ (clearApplicationCaches names false).2 ↔
      n ∈ names ∧ ¬ appPat.isPrefixOf n = true) ∧
    getCacheStatusTotal (clearApplicationCaches names false).2 = 0 ∧
    clearApplicationCaches names true = (false, names) := by
  refine ⟨rfl, ?_, ?_, rfl⟩
  · intro n
    simp only [clearApplicationCaches, appCaches, if_neg, Bool.false_eq_true,
      not_false_eq_true, if_false, Finset.mem_sdiff, Finset.mem_filter]
    tauto
  · simp only [getCacheStatusTotal, Finset.card_eq_zero]
    rw [Finset.eq_empty_iff_forall_not_mem]
    intro n hn
    simp only [clearApplicationCaches, appCaches, Bool.false_eq_true,
      not_false_eq_true, if_false, Finset.mem_filter, Finset.mem_sdiff] at hn
    tauto

/-- C9 witness: clearing when only the current generation exists leaves a
cache status of zero pattern-matching caches. -/
theorem C9_clear_cache_witness :
    getCacheStatusTotal (clearApplicationCaches {CACHE_NAME} false).2 = 0 :=
  (C9_clear_cache {CACHE_NAME}).2.2.1

end SatAlign
